import Mathlib

/-!
Verification of the trace-scanning routines of the qm-tools lessons:
the bond-distance extractor `plot_R` and the energy extractor
`plot_energy` from the geometry-optimization notebooks.

Lines of a solver trace are modelled as lists of characters; the Python
string primitives the code uses (`str.split`, `str.strip`, `str.find`,
`str.startswith`, `str(int)`, `float(str)`) are embedded as executable
functions below, and the two extractors are translated statement by
statement.  Fallible operations (`[i]` indexing, `float` conversion)
return `Except PyErr`.
-/

/-- A line (or token) of text: a list of characters. -/
abbrev Str := List Char

/-- Python whitespace for `str.split` / `str.strip`:
space, tab, newline, carriage return, vertical tab, form feed. -/
def isPySpace (c : Char) : Bool :=
  c == ' ' || c == '\t' || c == '\n' || c == '\r' || c == '\x0b' || c == '\x0c'

/-- Python `str.strip()`: remove leading and trailing whitespace. -/
def pyStrip (s : Str) : Str :=
  ((s.dropWhile isPySpace).reverse.dropWhile isPySpace).reverse

/-- Helper for `pySplit`: accumulates the current token (reversed). -/
def pySplitAux : Str → Str → List Str
  | [], acc => if acc.isEmpty then [] else [acc.reverse]
  | c :: rest, acc =>
      if isPySpace c then
        if acc.isEmpty then pySplitAux rest []
        else acc.reverse :: pySplitAux rest []
      else pySplitAux rest (c :: acc)

/-- Python `str.split()` with no argument: split on runs of whitespace,
discarding empty tokens. -/
def pySplit (s : Str) : List Str := pySplitAux s []

/-- Helper for `pyFind`: index of the first occurrence of `sub` in the
remaining string, offset by `i`; `-1` when absent. -/
def pyFindAux (sub : Str) : Str → Nat → Int
  | [], i => if sub.isPrefixOf ([] : Str) then (i : Int) else -1
  | c :: rest, i =>
      if sub.isPrefixOf (c :: rest) then (i : Int) else pyFindAux sub rest (i + 1)

/-- Python `s.find(sub)`: character index of the first occurrence of
`sub` in `s`, or `-1` when `sub` does not occur. -/
def pyFind (s sub : Str) : Int := pyFindAux sub s 0

/-- Python `str(n)` for an integer: decimal rendering with a leading
minus sign for negative values. -/
def pyStr (n : Int) : Str :=
  if n < 0 then '-' :: Nat.toDigits 10 n.natAbs else Nat.toDigits 10 n.toNat

/-- Numeric value of a run of decimal digits. -/
def digitsToNat (ds : Str) : Nat :=
  ds.foldl (fun acc c => 10 * acc + (c.toNat - 48)) 0

/-- The rational value `(num / den) * 10 ^ e`, computed with integer
arithmetic so that it evaluates inside the kernel. -/
def expApply (num : Int) (den : Nat) (e : Int) : ℚ :=
  if e < 0 then mkRat num (den * 10 ^ e.natAbs)
  else mkRat (num * (10 : Int) ^ e.toNat) den

/-- Optional exponent part of a float literal: empty, or `e`/`E`, an
optional sign, and a nonempty run of digits ending the string; applied
to the mantissa `num / den`. -/
def parseExpPart (num : Int) (den : Nat) : Str → Option ℚ
  | [] => some (mkRat num den)
  | c :: rest =>
      if c == 'e' || c == 'E' then
        let signed : Int × Str :=
          match rest with
          | '+' :: r => (1, r)
          | '-' :: r => (-1, r)
          | r => (1, r)
        let ds := signed.2.takeWhile Char.isDigit
        let tail := signed.2.dropWhile Char.isDigit
        if ds.isEmpty || !tail.isEmpty then none
        else some (expApply num den (signed.1 * (digitsToNat ds : Int)))
      else none

/-- Unsigned part of a float literal: digits with an optional fractional
part (at least one digit overall), then an optional exponent. -/
def pyFloatCore (s : Str) : Option ℚ :=
  let ip := s.takeWhile Char.isDigit
  let r1 := s.dropWhile Char.isDigit
  match r1 with
  | '.' :: r2 =>
      let fp := r2.takeWhile Char.isDigit
      let r3 := r2.dropWhile Char.isDigit
      if ip.isEmpty && fp.isEmpty then none
      else parseExpPart (digitsToNat (ip ++ fp) : Int) (10 ^ fp.length) r3
  | _ => if ip.isEmpty then none else parseExpPart (digitsToNat ip : Int) 1 r1

/-- Python `float(s)` on plain decimal literals: optional surrounding
whitespace, optional sign, digits with optional fractional part and
optional exponent.  `none` models a raised `ValueError`.  (The special
forms `inf`/`nan` never occur in the traces at hand and are rejected.) -/
def pyFloat (s : Str) : Option ℚ :=
  match pyStrip s with
  | '+' :: r => pyFloatCore r
  | '-' :: r => (pyFloatCore r).map Rat.neg
  | r => pyFloatCore r

/-- The two kinds of exception the extractors can raise:
`IndexError` from sequence indexing, `ValueError` from `float()`. -/
inductive PyErr where
  | indexError
  | valueError
deriving DecidableEq, Repr

instance {ε α : Type} [DecidableEq ε] [DecidableEq α] : DecidableEq (Except ε α) :=
  fun x y =>
    match x, y with
    | .error e, .error f =>
        if h : e = f then isTrue (by rw [h]) else isFalse (fun hh => by cases hh; exact h rfl)
    | .ok a, .ok b =>
        if h : a = b then isTrue (by rw [h]) else isFalse (fun hh => by cases hh; exact h rfl)
    | .error _, .ok _ => isFalse (fun hh => by cases hh)
    | .ok _, .error _ => isFalse (fun hh => by cases hh)

/-- Python `l[i]` on a list: the element, or an `IndexError`. -/
def getItem {α : Type} (l : List α) (i : Nat) : Except PyErr α :=
  match l.get? i with
  | none => .error .indexError
  | some x => .ok x

/-- Python `float(s)` as a fallible operation: `ValueError` on failure. -/
def toFloat (s : Str) : Except PyErr ℚ :=
  match pyFloat s with
  | none => .error .valueError
  | some q => .ok q

/-- Error-propagating map, modelling a Python loop or comprehension that
applies a fallible expression to each element in order: the first raised
exception aborts the whole computation. -/
def mapE {α β : Type} (f : α → Except PyErr β) : List α → Except PyErr (List β)
  | [] => .ok []
  | a :: l =>
      match f a with
      | .error e => .error e
      | .ok b =>
          match mapE f l with
          | .error e => .error e
          | .ok bs => .ok (b :: bs)

/-- The tag `pair_notation` built by `plot_R`:
`'R(' + str(a) + ',' + str(b) + ')'`. -/
def pairTag (a b : Int) : Str :=
  "R(".data ++ pyStr a ++ ",".data ++ pyStr b ++ ")".data

/-- The per-line selection test of `plot_R`:
`line.find(pair_notation) > 1 and line.strip().split()[1].startswith(pair_notation)`.
The conjunction short-circuits, and the `[1]` access can itself raise an
`IndexError` when the trimmed line has fewer than two tokens. -/
def selectLine (tag : Str) (line : Str) : Except PyErr Bool :=
  if pyFind line tag > 1 then
    match (pySplit (pyStrip line)).get? 1 with
    | none => .error .indexError
    | some t => .ok (tag.isPrefixOf t)
  else .ok false

/-- The comprehension
`[line.split() for line in f if <selectLine>]`: the split token lists of
the selected lines, in trace order; any exception raised while testing a
line aborts the scan. -/
def selectedRows (tag : Str) : List Str → Except PyErr (List (List Str))
  | [] => .ok []
  | line :: rest =>
      match selectLine tag line with
      | .error e => .error e
      | .ok b =>
          match selectedRows tag rest with
          | .error e => .error e
          | .ok rs => .ok (if b then pySplit line :: rs else rs)

/-- Body of the loop `for item in rows: bond_distances.append(float(item[6]))`. -/
def itemFloat (item : List Str) : Except PyErr ℚ :=
  match getItem item 6 with
  | .error e => .error e
  | .ok t => toFloat t

/-- Body of `plot_R` after the tag is built: select the rows, read
`float(rows[0][3])` first, then `float(item[6])` for every selected row. -/
def scanPairs (tag : Str) (trace : List Str) : Except PyErr (List ℚ) :=
  match selectedRows tag trace with
  | .error e => .error e
  | .ok rows =>
      match getItem rows 0 with
      | .error e => .error e
      | .ok first =>
          match getItem first 3 with
          | .error e => .error e
          | .ok t3 =>
              match toFloat t3 with
              | .error e => .error e
              | .ok v0 =>
                  match mapE itemFloat rows with
                  | .error e => .error e
                  | .ok vs => .ok (v0 :: vs)

/-- The bond-distance extractor `plot_R(a, b)` of the notebooks, reading
an already-materialized trace (the list of lines of the optimization
log). -/
def plot_R (trace : List Str) (a b : Int) : Except PyErr (List ℚ) :=
  scanPairs (pairTag a b) trace

/-- The fixed tag of the energy extractor: `'Current energy'`. -/
def energyTag : Str := "Current energy".data

/-- The selection test of `plot_energy`:
`line.strip().startswith('Current energy')`. -/
def energySel (line : Str) : Bool := energyTag.isPrefixOf (pyStrip line)

/-- Body of the comprehension of `plot_energy`: `float(line.split()[3])`. -/
def energyVal (line : Str) : Except PyErr ℚ :=
  match getItem (pySplit line) 3 with
  | .error e => .error e
  | .ok t => toFloat t

/-- The energy extractor `plot_energy()` of the notebooks:
`[ float(line.split()[3]) for line in f if line.strip().startswith('Current energy') ]`. -/
def plot_energy (trace : List Str) : Except PyErr (List ℚ) :=
  mapE energyVal (trace.filter energySel)

/-- The element of a list at index `i`, with default `d`:
a total description of a successful Python `l[i]`. -/
def nthD {α : Type} (l : List α) (i : Nat) (d : α) : α := (l.get? i).getD d

theorem getItem_eq_ok {α : Type} {l : List α} {i : Nat} (h : i < l.length) (d : α) :
    getItem l i = .ok (nthD l i d) := by
  unfold getItem nthD
  cases hg : l.get? i with
  | none => exact absurd (List.get?_eq_none.mp hg) (Nat.not_le.mpr h)
  | some x => rfl

theorem getItem_eq_error {α : Type} {l : List α} {i : Nat} (h : l.length ≤ i) :
    getItem l i = .error .indexError := by
  unfold getItem
  rw [List.get?_eq_none.mpr h]

theorem nthD_mem {α : Type} {l : List α} {i : Nat} (h : i < l.length) (d : α) :
    nthD l i d ∈ l := by
  unfold nthD
  cases hg : l.get? i with
  | none => exact absurd (List.get?_eq_none.mp hg) (Nat.not_le.mpr h)
  | some x => exact List.get?_mem hg

theorem toFloat_ok {s : Str} (h : (pyFloat s).isSome) :
    toFloat s = .ok ((pyFloat s).getD 0) := by
  obtain ⟨q, hq⟩ := Option.isSome_iff_exists.mp h
  simp [toFloat, hq]

theorem mapE_ok {α β : Type} (f : α → Except PyErr β) (g : α → β) (l : List α)
    (h : ∀ x ∈ l, f x = .ok (g x)) : mapE f l = .ok (l.map g) := by
  induction l with
  | nil => rfl
  | cons a l ih =>
      have ha := h a (List.mem_cons_self a l)
      have hl := ih (fun x hx => h x (List.mem_cons_of_mem a hx))
      simp [mapE, ha, hl]

theorem mapE_error {α β : Type} (f : α → Except PyErr β) (l : List α) (x : α)
    (e : PyErr) (he : f x = .error e) (hx : x ∈ l) :
    ∃ e2, mapE f l = .error e2 := by
  induction l with
  | nil => cases hx
  | cons a l ih =>
      cases hfa : f a with
      | error ea => exact ⟨ea, by simp [mapE, hfa]⟩
      | ok b =>
          rcases List.mem_cons.mp hx with rfl | h2
          · rw [hfa] at he; exact Except.noConfusion he
          · obtain ⟨e2, he2⟩ := ih h2
            exact ⟨e2, by simp [mapE, hfa, he2]⟩

/-- C1: for a trace whose selection for the pair tag of `a`, `b` succeeds
and yields exactly `k ≥ 1` rows, each with at least 7 tokens whose
tokens 3 and 6 parse as floats, `plot_R` returns the float of token 3 of
the first selected row followed by the float of token 6 of every
selected row in order — a sequence of length `k + 1`. -/
theorem C1_pair_series (trace : List Str) (a b : Int) (rows : List (List Str)) (k : Nat)
    (hrows : selectedRows (pairTag a b) trace = .ok rows)
    (hlen : rows.length = k) (hk : 1 ≤ k)
    (hwf : ∀ item ∈ rows, 7 ≤ item.length ∧
        (pyFloat (nthD item 3 [])).isSome ∧ (pyFloat (nthD item 6 [])).isSome) :
    plot_R trace a b =
      .ok ((pyFloat (nthD (nthD rows 0 []) 3 [])).getD 0 ::
        rows.map (fun item => (pyFloat (nthD item 6 [])).getD 0)) ∧
    ((pyFloat (nthD (nthD rows 0 []) 3 [])).getD 0 ::
        rows.map (fun item => (pyFloat (nthD item 6 [])).getD 0)).length = k + 1 := by
  have h0 : 0 < rows.length := by omega
  have hmem0 : nthD rows 0 [] ∈ rows := nthD_mem h0 []
  obtain ⟨h7, h3, _⟩ := hwf _ hmem0
  constructor
  · unfold plot_R scanPairs
    rw [hrows]
    dsimp only
    rw [getItem_eq_ok h0 ([] : List Str)]
    dsimp only
    rw [getItem_eq_ok (show 3 < (nthD rows 0 []).length by omega) ([] : Str)]
    dsimp only
    rw [toFloat_ok h3]
    dsimp only
    rw [mapE_ok itemFloat (fun item => (pyFloat (nthD item 6 [])).getD 0) rows ?hitem]
    case hitem =>
      intro item hitem
      obtain ⟨h7i, _, h6i⟩ := hwf item hitem
      unfold itemFloat
      rw [getItem_eq_ok (show 6 < item.length by omega) ([] : Str)]
      dsimp only
      exact toFloat_ok h6i
  · simp [List.length_map, hlen]

/-- C1 witness: a one-line trace whose line carries the tag `R(1,2)` at
index 2 and has 7 tokens; the extractor returns the two floats. -/
theorem C1_pair_series_witness :
    (selectedRows (pairTag 1 2) ["  R(1,2)  R(1,2)  =  1.234  x  y  5.678".data] =
      .ok [pySplit "  R(1,2)  R(1,2)  =  1.234  x  y  5.678".data]) ∧
    plot_R ["  R(1,2)  R(1,2)  =  1.234  x  y  5.678".data] 1 2 =
      .ok ((pyFloat (nthD (nthD [pySplit "  R(1,2)  R(1,2)  =  1.234  x  y  5.678".data] 0 []) 3 [])).getD 0 ::
        [pySplit "  R(1,2)  R(1,2)  =  1.234  x  y  5.678".data].map
          (fun item => (pyFloat (nthD item 6 [])).getD 0)) :=
  ⟨by decide, (C1_pair_series _ 1 2 _ 1 (by decide) (by decide) (by decide) (by decide)).1⟩

/-- C2 counterexample: the line `"R(1,2) R(1,2) = 1.0 x y 2.0"` contains
the tag `R(1,2)` as a substring (at index 0) and its second token starts
with the tag, yet `plot_R`'s test does not select it, because the code
requires `line.find(tag) > 1`. -/
theorem C2_selection_counterexample :
    pyFind "R(1,2) R(1,2) = 1.0 x y 2.0".data (pairTag 1 2) ≠ -1 ∧
    (pairTag 1 2).isPrefixOf
      (nthD (pySplit (pyStrip "R(1,2) R(1,2) = 1.0 x y 2.0".data)) 1 []) = true ∧
    selectLine (pairTag 1 2) "R(1,2) R(1,2) = 1.0 x y 2.0".data = .ok false ∧
    selectedRows (pairTag 1 2) ["R(1,2) R(1,2) = 1.0 x y 2.0".data] = .ok [] := by
  decide

/-- C2 amended: a line is selected exactly when the first occurrence of
the pair tag in the line is at character index 2 or later
(`line.find(tag) > 1`) and the trimmed line has a second
whitespace-delimited token that starts with the tag. -/
theorem C2_selection_amended (tag line : Str) :
    selectLine tag line = .ok true ↔
      (1 < pyFind line tag ∧
        ∃ t, (pySplit (pyStrip line)).get? 1 = some t ∧ tag.isPrefixOf t = true) := by
  unfold selectLine
  by_cases hf : pyFind line tag > 1
  · cases hg : (pySplit (pyStrip line)).get? 1 with
    | none => simp [hf, hg]
    | some t => simp [hf, hg]
  · simp [hf]

/-- C3 counterexample: on the spec's scenario-A line the tokens are only
six, so the read of token index 6 raises an `IndexError` instead of
returning `[1.234, 5.678]`. -/
theorem C3_scenarioA_counterexample :
    plot_R ["  R(1,2)  R(1,2)     =   1.234   ...  5.678  ".data] 1 2 =
      .error .indexError ∧
    plot_R ["  R(1,2)  R(1,2)     =   1.234   ...  5.678  ".data] 1 2 ≠
      .ok [mkRat 1234 1000, mkRat 5678 1000] := by
  decide

/-- C3 amended: with the value `5.678` moved to token index 6 (a
seven-token line), the extractor called with `a = 1`, `b = 2` returns
`[1.234, 5.678]`; the original six-token scenario line raises an index
error. -/
theorem C3_scenarioA_amended :
    plot_R ["  R(1,2)  R(1,2)     =   1.234   x   y   5.678  ".data] 1 2 =
      .ok [mkRat 1234 1000, mkRat 5678 1000] := by
  decide

/-- C4: when the scan selects no line (and raises no error while
testing), the first-element read `rows_with_R_pairs[0]` raises the
index-out-of-range error; no sequence is returned. -/
theorem C4_no_match_error (trace : List Str) (a b : Int)
    (h : selectedRows (pairTag a b) trace = .ok []) :
    plot_R trace a b = .error .indexError := by
  unfold plot_R scanPairs
  rw [h]
  rfl

/-- C4 witness: a trace with a single unrelated line selects nothing and
`plot_R` raises the index error. -/
theorem C4_no_match_error_witness :
    selectedRows (pairTag 1 2) ["hello".data] = .ok [] ∧
    plot_R ["hello".data] 1 2 = .error .indexError :=
  ⟨by decide, C4_no_match_error _ 1 2 (by decide)⟩

/-- C5: whenever every line selected by `plot_energy` has a token at
index 3 that parses as a float, the extractor returns exactly one value
per selected line, in trace order, read from token index 3; the result's
length is the number of selected lines, and zero selected lines yield
the empty sequence without error (the hypothesis is then vacuous). -/
theorem C5_energy_series (trace : List Str)
    (h : ∀ line ∈ trace, energySel line = true →
        3 < (pySplit line).length ∧ (pyFloat (nthD (pySplit line) 3 [])).isSome) :
    plot_energy trace =
      .ok ((trace.filter energySel).map
        (fun line => (pyFloat (nthD (pySplit line) 3 [])).getD 0)) ∧
    ∀ res, plot_energy trace = .ok res →
      res.length = (trace.filter energySel).length := by
  have hmain : plot_energy trace =
      .ok ((trace.filter energySel).map
        (fun line => (pyFloat (nthD (pySplit line) 3 [])).getD 0)) := by
    unfold plot_energy
    apply mapE_ok
    intro line hline
    obtain ⟨hmem, hsel⟩ := List.mem_filter.mp hline
    obtain ⟨h4, hparse⟩ := h line hmem hsel
    unfold energyVal
    rw [getItem_eq_ok h4 ([] : Str)]
    dsimp only
    exact toFloat_ok hparse
  refine ⟨hmain, ?_⟩
  intro res hres
  rw [hmain] at hres
  injection hres with hres
  rw [← hres]
  simp [List.length_map]

/-- C5 witness: a two-line trace with one `Current energy` line. -/
theorem C5_energy_series_witness :
    plot_energy ["Current energy     =   -40.123456".data, "noise".data] =
      .ok ((["Current energy     =   -40.123456".data, "noise".data].filter energySel).map
        (fun line => (pyFloat (nthD (pySplit line) 3 [])).getD 0)) ∧
    ∀ res, plot_energy ["Current energy     =   -40.123456".data, "noise".data] = .ok res →
      res.length =
        (["Current energy     =   -40.123456".data, "noise".data].filter energySel).length :=
  C5_energy_series _ (by decide)

/-- C6: a trace containing a selected line with fewer than 4 tokens, or
whose token index 3 does not parse as a float, makes `plot_energy` raise
an error instead of returning a sequence. -/
theorem C6_energy_format_error (trace : List Str) (line : Str)
    (hmem : line ∈ trace) (hsel : energySel line = true)
    (hbad : (pySplit line).length < 4 ∨ pyFloat (nthD (pySplit line) 3 []) = none) :
    ∃ e, plot_energy trace = .error e := by
  have hline : line ∈ trace.filter energySel := List.mem_filter.mpr ⟨hmem, hsel⟩
  have herr : ∃ e, energyVal line = .error e := by
    unfold energyVal
    by_cases h4 : 3 < (pySplit line).length
    · rcases hbad with hlt | hn
      · omega
      · rw [getItem_eq_ok h4 ([] : Str)]
        dsimp only
        exact ⟨.valueError, by simp [toFloat, hn]⟩
    · refine ⟨.indexError, ?_⟩
      rw [getItem_eq_error (by omega)]
  obtain ⟨e, he⟩ := herr
  exact mapE_error energyVal (trace.filter energySel) line e he hline

/-- C6 witness: a selected line whose token 3 is not a number. -/
theorem C6_energy_format_error_witness :
    energySel "Current energy = oops".data = true ∧
    ∃ e, plot_energy ["Current energy = oops".data] = .error e :=
  ⟨by decide, C6_energy_format_error _ "Current energy = oops".data
    (by decide) (by decide) (by decide)⟩

/-- C7: both extractors are pure functions of the trace and the
parameters: repeating a scan with the same inputs yields the same
result. -/
theorem C7_deterministic (trace : List Str) (a b : Int) :
    plot_R trace a b = plot_R trace a b ∧ plot_energy trace = plot_energy trace :=
  ⟨rfl, rfl⟩

/-- C8: on the line `"==R(1,2)"` the tag occurs at index 2 but the line
has a single token, so the selection test's `split()[1]` itself raises
an `IndexError`, and `plot_R` on that one-line trace raises it, although
the line is not selected. -/
theorem C8_selection_index_error :
    pyFind "==R(1,2)".data (pairTag 1 2) > 1 ∧
    (pySplit (pyStrip "==R(1,2)".data)).length < 2 ∧
    selectLine (pairTag 1 2) "==R(1,2)".data = .error .indexError ∧
    plot_R ["==R(1,2)".data] 1 2 = .error .indexError := by
  decide

/-- C9: `plot_energy` depends only on the subsequence of lines whose
trimmed content starts with `Current energy`: traces with equal selected
subsequences give identical results. -/
theorem C9_energy_noninterference (t1 t2 : List Str)
    (h : t1.filter energySel = t2.filter energySel) :
    plot_energy t1 = plot_energy t2 := by
  unfold plot_energy
  rw [h]

/-- C9 witness: adding and removing non-selected lines around the same
energy line does not change the result. -/
theorem C9_energy_noninterference_witness :
    (["x".data, "Current energy = -1.0".data].filter energySel =
      ["Current energy = -1.0".data, "garbage".data].filter energySel) ∧
    plot_energy ["x".data, "Current energy = -1.0".data] =
      plot_energy ["Current energy = -1.0".data, "garbage".data] :=
  ⟨by decide, C9_energy_noninterference _ _ (by decide)⟩

/-- C10: `plot_R` checks no precondition on `a` and `b`: for every
integers `a`, `b` — zero and negatives included — the tag is the plain
concatenation `'R(' + str(a) + ',' + str(b) + ')'` and the scan proceeds
by the ordinary rules; e.g. with `a = 0`, `b = -1` a matching trace is
extracted normally. -/
theorem C10_tag_no_precondition (trace : List Str) (a b : Int) :
    pairTag a b = "R(".data ++ pyStr a ++ ",".data ++ pyStr b ++ ")".data ∧
    plot_R trace a b = scanPairs (pairTag a b) trace ∧
    plot_R ["  R(0,-1)  R(0,-1)  =  1.0  x  y  2.0".data] 0 (-1) =
      .ok [mkRat 1 1, mkRat 2 1] :=
  ⟨rfl, rfl, by decide⟩
